import Mathlib

/-!
Shallow embedding of `excel-to-csv-utf8-converter` (files
`src/convert_xls_to_csv.py` and `src/app.py`).

Bytes are modelled as `List Nat` (each entry `< 256`), decoded text as
`List Nat` of Unicode code points.  External library calls made by the
program (`bytes.decode`, `pd.read_html` on simple flat tables,
`df.to_csv`, `werkzeug.utils.secure_filename`, `pathlib.Path.with_suffix`)
are embedded by implementing their documented byte-level behaviour; the
single-byte codec tables below are the exact CPython decoding tables of
`cp874`, `tis-620` and `iso-8859-11`, and, as in CPython, there is no
codec registered under the name `windows-874` (looking it up raises
`LookupError`).
-/

/-- Code points of a (pure-ASCII or Thai) Lean string literal, used to
write concrete byte lists and texts compactly. -/
def strBytes (s : String) : List Nat :=
  s.toList.map Char.toNat

/-! ## UTF-8 (strict and errors='replace') -/

/-- Standard UTF-8 encoding of one Unicode scalar value. -/
def utf8EncodeChar (c : Nat) : List Nat :=
  if c < 128 then [c]
  else if c < 2048 then [192 + c / 64, 128 + c % 64]
  else if c < 65536 then [224 + c / 4096, 128 + (c / 64) % 64, 128 + c % 64]
  else [240 + c / 262144, 128 + (c / 4096) % 64, 128 + (c / 64) % 64, 128 + c % 64]

/-- UTF-8 encoding of a sequence of scalar values. -/
def utf8Encode (cs : List Nat) : List Nat :=
  (cs.map utf8EncodeChar).flatten

/-- Is `b` a UTF-8 continuation byte? -/
def isCont (b : Nat) : Bool :=
  128 ≤ b && b ≤ 191

/-- Lower bound for the second byte of a 3-byte sequence led by `b`
(rules out overlong forms and surrogates, as CPython's strict codec does). -/
def cont3Lo (b : Nat) : Nat :=
  if b = 224 then 160 else 128

/-- Upper bound for the second byte of a 3-byte sequence led by `b`. -/
def cont3Hi (b : Nat) : Nat :=
  if b = 237 then 159 else 191

/-- Lower bound for the second byte of a 4-byte sequence led by `b`. -/
def cont4Lo (b : Nat) : Nat :=
  if b = 240 then 144 else 128

/-- Upper bound for the second byte of a 4-byte sequence led by `b`. -/
def cont4Hi (b : Nat) : Nat :=
  if b = 244 then 143 else 191

/-- Strict UTF-8 decoding (CPython `bytes.decode('utf-8')`): `none` models
a raised `UnicodeDecodeError`.  `fuel` bounds the recursion; one unit is
spent per decoded character, so `bs.length` is always enough. -/
def utf8DecodeGo : Nat → List Nat → Option (List Nat)
  | _, [] => some []
  | 0, _ :: _ => none
  | fuel + 1, b :: bs =>
    if b < 128 then
      (utf8DecodeGo fuel bs).map (fun t => b :: t)
    else if b < 194 then
      none
    else if b < 224 then
      match bs with
      | b1 :: bs1 =>
        if isCont b1 then
          (utf8DecodeGo fuel bs1).map (fun t => ((b - 192) * 64 + (b1 - 128)) :: t)
        else none
      | [] => none
    else if b < 240 then
      match bs with
      | b1 :: b2 :: bs2 =>
        if cont3Lo b ≤ b1 && b1 ≤ cont3Hi b && isCont b2 then
          (utf8DecodeGo fuel bs2).map
            (fun t => ((b - 224) * 4096 + (b1 - 128) * 64 + (b2 - 128)) :: t)
        else none
      | _ => none
    else if b < 245 then
      match bs with
      | b1 :: b2 :: b3 :: bs3 =>
        if cont4Lo b ≤ b1 && b1 ≤ cont4Hi b && isCont b2 && isCont b3 then
          (utf8DecodeGo fuel bs3).map
            (fun t => ((b - 240) * 262144 + (b1 - 128) * 4096 + (b2 - 128) * 64 + (b3 - 128)) :: t)
        else none
      | _ => none
    else none

/-- `bytes.decode('utf-8')`: strict UTF-8 decoding of a byte list. -/
def utf8Decode (bs : List Nat) : Option (List Nat) :=
  utf8DecodeGo bs.length bs

/-- The Unicode replacement character U+FFFD. -/
def replacementChar : Nat := 65533

/-- `bytes.decode('utf-8', errors='replace')`: total decoding that maps
each maximal ill-formed subsequence to U+FFFD, as CPython does. -/
def utf8ReplaceGo : Nat → List Nat → List Nat
  | _, [] => []
  | 0, _ :: _ => []
  | fuel + 1, b :: bs =>
    if b < 128 then
      b :: utf8ReplaceGo fuel bs
    else if b < 194 then
      replacementChar :: utf8ReplaceGo fuel bs
    else if b < 224 then
      match bs with
      | b1 :: bs1 =>
        if isCont b1 then
          ((b - 192) * 64 + (b1 - 128)) :: utf8ReplaceGo fuel bs1
        else replacementChar :: utf8ReplaceGo fuel bs
      | [] => [replacementChar]
    else if b < 240 then
      match bs with
      | b1 :: rest =>
        if cont3Lo b ≤ b1 && b1 ≤ cont3Hi b then
          match rest with
          | b2 :: bs2 =>
            if isCont b2 then
              ((b - 224) * 4096 + (b1 - 128) * 64 + (b2 - 128)) :: utf8ReplaceGo fuel bs2
            else replacementChar :: utf8ReplaceGo fuel rest
          | [] => [replacementChar]
        else replacementChar :: utf8ReplaceGo fuel bs
      | [] => [replacementChar]
    else if b < 245 then
      match bs with
      | b1 :: rest =>
        if cont4Lo b ≤ b1 && b1 ≤ cont4Hi b then
          match rest with
          | b2 :: rest2 =>
            if isCont b2 then
              match rest2 with
              | b3 :: bs3 =>
                if isCont b3 then
                  ((b - 240) * 262144 + (b1 - 128) * 4096 + (b2 - 128) * 64 + (b3 - 128)) ::
                    utf8ReplaceGo fuel bs3
                else replacementChar :: utf8ReplaceGo fuel rest2
              | [] => [replacementChar]
            else replacementChar :: utf8ReplaceGo fuel rest
          | [] => [replacementChar]
        else replacementChar :: utf8ReplaceGo fuel bs
      | [] => [replacementChar]
    else replacementChar :: utf8ReplaceGo fuel bs

/-- Total UTF-8 decoding with replacement (never fails). -/
def utf8DecodeReplace (bs : List Nat) : List Nat :=
  utf8ReplaceGo bs.length bs

/-! ## The legacy single-byte Thai codecs (exact CPython tables) -/

/-- CPython `cp874` single-byte decoding table. -/
def cp874DecodeByte (b : Nat) : Option Nat :=
  if b < 128 then some b
  else if b = 128 then some 8364
  else if b = 133 then some 8230
  else if b = 145 then some 8216
  else if b = 146 then some 8217
  else if b = 147 then some 8220
  else if b = 148 then some 8221
  else if b = 149 then some 8226
  else if b = 150 then some 8211
  else if b = 151 then some 8212
  else if b = 160 then some 160
  else if (161 ≤ b && b ≤ 218) || (223 ≤ b && b ≤ 251) then some (b + 3424)
  else none

/-- CPython `tis-620` single-byte decoding table. -/
def tis620DecodeByte (b : Nat) : Option Nat :=
  if b ≤ 159 then some b
  else if (161 ≤ b && b ≤ 218) || (223 ≤ b && b ≤ 251) then some (b + 3424)
  else none

/-- CPython `iso-8859-11` single-byte decoding table. -/
def iso885911DecodeByte (b : Nat) : Option Nat :=
  if b ≤ 160 then some b
  else if (161 ≤ b && b ≤ 218) || (223 ≤ b && b ≤ 251) then some (b + 3424)
  else none

/-- Decode a byte list with a single-byte table; `none` models
`UnicodeDecodeError` on the first undefined byte. -/
def singleByteDecode (table : Nat → Option Nat) (bs : List Nat) : Option (List Nat) :=
  bs.mapM table

/-! ## The Python codec registry as seen by the program -/

/-- The encoding names the program passes to `bytes.decode`. -/
inductive Enc
  | utf8
  | cp874
  | tis620
  | iso885911
  | windows874
deriving DecidableEq

/-- The spelling of each encoding name in the source. -/
def encName : Enc → String
  | .utf8 => "utf-8"
  | .cp874 => "cp874"
  | .tis620 => "tis-620"
  | .iso885911 => "iso-8859-11"
  | .windows874 => "windows-874"

/-- CPython's codec lookup for those names: `windows-874` is not a
registered codec or alias, so its lookup fails. -/
def pyCodecLookup : Enc → Option (List Nat → Option (List Nat))
  | .utf8 => some utf8Decode
  | .cp874 => some (singleByteDecode cp874DecodeByte)
  | .tis620 => some (singleByteDecode tis620DecodeByte)
  | .iso885911 => some (singleByteDecode iso885911DecodeByte)
  | .windows874 => none

/-- Outcome of `bytes.decode(enc)`: success, `UnicodeDecodeError`, or
`LookupError` (unknown encoding). -/
inductive PyDecodeResult
  | ok (text : List Nat)
  | unicodeError
  | lookupError (msg : String)
deriving DecidableEq

/-- `bytes.decode(enc)` for the encodings named by the program. -/
def pyDecode (e : Enc) (bs : List Nat) : PyDecodeResult :=
  match pyCodecLookup e with
  | none => .lookupError ("unknown encoding: " ++ encName e)
  | some d =>
    match d bs with
    | some t => .ok t
    | none => .unicodeError

/-! ## The decoding fallback chain (src lines 56-72 of
`convert_xls_to_csv.py`, identically lines 53-68 of `app.py`) -/

/-- The legacy encoding list the source iterates over. -/
def legacyEncodings : List Enc :=
  [.cp874, .tis620, .iso885911, .windows874]

/-- The `for enc in encodings` loop: stop at the first encoding that
decodes; a `UnicodeDecodeError` continues the loop; any other exception
(here: `LookupError`) propagates; if the loop ends with `html_text` still
`None`, fall back to UTF-8 with replacement. -/
def decodeTextChainGo : List Enc → List Nat → Except String (List Nat)
  | [], bs => .ok (utf8DecodeReplace bs)
  | e :: rest, bs =>
    match pyDecode e bs with
    | .ok t => .ok t
    | .unicodeError => decodeTextChainGo rest bs
    | .lookupError m => .error m

/-- The whole decoding sub-chain: UTF-8 first, then the legacy list. -/
def decodeTextChain (bs : List Nat) : Except String (List Nat) :=
  match pyDecode .utf8 bs with
  | .ok t => .ok t
  | .unicodeError => decodeTextChainGo legacyEncodings bs
  | .lookupError m => .error m

/-! ## Charset semantics for the specification's five encodings -/

/-- Decoding under each of the five supported charsets themselves
(`windows-874` as a charset coincides with `cp874`); used to state what
"a valid encoding of some text" means, independently of whether CPython
registers the name. -/
def decodeCharset : Enc → List Nat → Option (List Nat)
  | .utf8, bs => utf8Decode bs
  | .cp874, bs => singleByteDecode cp874DecodeByte bs
  | .tis620, bs => singleByteDecode tis620DecodeByte bs
  | .iso885911, bs => singleByteDecode iso885911DecodeByte bs
  | .windows874, bs => singleByteDecode cp874DecodeByte bs

instance {ε α : Type} [DecidableEq ε] [DecidableEq α] : DecidableEq (Except ε α) := fun x y =>
  match x, y with
  | .ok a, .ok b =>
    if h : a = b then isTrue (by rw [h]) else isFalse (by simp [h])
  | .error a, .error b =>
    if h : a = b then isTrue (by rw [h]) else isFalse (by simp [h])
  | .ok _, .error _ => isFalse (by simp)
  | .error _, .ok _ => isFalse (by simp)

/-- Position of each encoding in the fallback chain. -/
def chainIdx : Enc → Nat
  | .utf8 => 0
  | .cp874 => 1
  | .tis620 => 2
  | .iso885911 => 3
  | .windows874 => 4

example : utf8Decode (strBytes ("abc")) = some [97, 98, 99] := by decide
example : utf8Decode [224, 161, 161] = some [2145] := by decide
example : utf8Decode [255] = none := by decide
example : utf8DecodeReplace [255] = [replacementChar] := by decide
example : decodeTextChain [255] = .error ("unknown encoding: windows-874") := by decide
example : decodeTextChain [134] = .ok [134] := by decide
example : utf8Encode [2145] = [224, 161, 161] := by decide

/-! ## A flat-HTML-table model of `pd.read_html` -/

/-- A table cell, as decoded text. -/
abbrev Cell := List Nat

/-- A table row. -/
abbrev Row := List Cell

/-- An extracted HTML table: its rows in document order. -/
abbrev HtmlTable := List Row

/-- Code points of `<table`. -/
def tagTable : List Nat := strBytes ("<table")

/-- Code points of `</table`. -/
def tagCloseTable : List Nat := strBytes ("</table")

/-- Code points of `<tr`. -/
def tagTr : List Nat := strBytes ("<tr")

/-- Code points of `</tr`. -/
def tagCloseTr : List Nat := strBytes ("</tr")

/-- Code points of `<td`. -/
def tagTd : List Nat := strBytes ("<td")

/-- Code points of `<th`. -/
def tagTh : List Nat := strBytes ("<th")

/-- Drop characters up to and including the next `>`. -/
def dropAfterGt : List Nat → List Nat
  | [] => []
  | c :: cs => if c = 62 then cs else dropAfterGt cs

/-- Split at the next `<`: text before it, and the rest starting at it. -/
def takeUntilLt : List Nat → List Nat × List Nat
  | [] => ([], [])
  | c :: cs =>
    if c = 60 then ([], c :: cs)
    else
      let p := takeUntilLt cs
      (c :: p.1, p.2)

/-- Scan the cells of one row: `<td>`/`<th>` content up to the next tag;
stop at `</tr>` (consuming it) or at `</table` (leaving it in place). -/
def parseCells : Nat → List Nat → List Cell × List Nat
  | 0, cs => ([], cs)
  | fuel + 1, cs =>
    let rest := (takeUntilLt cs).2
    match rest with
    | [] => ([], [])
    | _ :: _ =>
      if List.isPrefixOf tagCloseTr rest then ([], dropAfterGt rest)
      else if List.isPrefixOf tagCloseTable rest then ([], rest)
      else if List.isPrefixOf tagTd rest || List.isPrefixOf tagTh rest then
        let afterOpen := dropAfterGt rest
        let content := takeUntilLt afterOpen
        let next := parseCells fuel content.2
        (content.1 :: next.1, next.2)
      else parseCells fuel (dropAfterGt rest)

/-- Scan the rows of one table: `<tr>` rows until `</table` (consumed). -/
def parseRows : Nat → List Nat → List Row × List Nat
  | 0, cs => ([], cs)
  | fuel + 1, cs =>
    let rest := (takeUntilLt cs).2
    match rest with
    | [] => ([], [])
    | _ :: _ =>
      if List.isPrefixOf tagCloseTable rest then ([], dropAfterGt rest)
      else if List.isPrefixOf tagTr rest then
        let cells := parseCells fuel (dropAfterGt rest)
        let next := parseRows fuel cells.2
        (cells.1 :: next.1, next.2)
      else parseRows fuel (dropAfterGt rest)

/-- Collect every `<table>` element of the document, in document order. -/
def findTablesGo : Nat → List Nat → List HtmlTable
  | 0, _ => []
  | fuel + 1, cs =>
    let rest := (takeUntilLt cs).2
    match rest with
    | [] => []
    | _ :: _ =>
      if List.isPrefixOf tagTable rest then
        let rows := parseRows fuel (dropAfterGt rest)
        rows.1 :: findTablesGo fuel rows.2
      else findTablesGo fuel (dropAfterGt rest)

/-- All tables of a decoded HTML text. -/
def findTables (text : List Nat) : List HtmlTable :=
  findTablesGo (text.length + 1) text

/-- Model of `pd.read_html`: the list of tables, or the `ValueError`
message pandas raises when the document holds no table. -/
def read_html (text : List Nat) : Except String (List HtmlTable) :=
  let ts := findTables text
  if ts.isEmpty then .error ("No tables found") else .ok ts

/-! ## The tabular dataset -/

/-- A pandas DataFrame as the program uses it: column names (the header
row) and the data rows, all cells as text. -/
structure DataFrame where
  header : Row
  rows : List Row
deriving DecidableEq

/-- How a DataFrame arises from an extracted HTML table: first row is the
header, the remaining rows are data. -/
def dfOfTable (t : HtmlTable) : DataFrame :=
  { header := t.headD [], rows := t.tail }

/-- Model of `pd.read_excel(..., sheet_name=0, header=0)` on a parsed
first sheet: row 0 is the header, the rest are data rows. -/
def read_excel (sheet : List Row) : DataFrame :=
  { header := sheet.headD [], rows := sheet.tail }

/-! ## The format sniffer (src lines 46-82 of `convert_xls_to_csv.py`,
identically lines 44-77 of `app.py`) -/

/-- The HTML fallback branch (the inner `try` of lines 51-80): decode the
raw bytes, extract the tables, use the first one; zero tables is the
dead-code `ValueError` of line 80. -/
def htmlBranch (bs : List Nat) : Except String DataFrame :=
  match decodeTextChain bs with
  | .error m => .error m
  | .ok text =>
    match read_html text with
    | .error m => .error m
    | .ok dfs =>
      match dfs with
      | t :: _ => .ok (dfOfTable t)
      | [] => .error ("ไม่พบตารางในไฟล์ HTML")

/-- The two-stage read: `pd.read_excel` first (its outcome is the `excel`
argument, produced by the external binary parser), then the HTML branch,
whose failure is wrapped into the single combined `ValueError`. -/
def readTable (excel : Except String DataFrame) (bs : List Nat) : Except String DataFrame :=
  match excel with
  | .ok df => .ok df
  | .error _ =>
    match htmlBranch bs with
    | .ok df => .ok df
    | .error m => .error ("ไม่สามารถอ่านไฟล์ได้: " ++ m)

/-! ## CSV emission (`df.to_csv(index=False, header=True,
encoding='utf-8-sig', sep=',')`) -/

/-- csv QUOTE_MINIMAL: a field is quoted when it holds a comma, a quote,
or a line break. -/
def needsQuoting (s : Cell) : Bool :=
  s.any (fun c => c = 44 || c = 34 || c = 10 || c = 13)

/-- Double every quote character inside a quoted field. -/
def escapeQuotes : List Nat → List Nat
  | [] => []
  | c :: cs => if c = 34 then 34 :: 34 :: escapeQuotes cs else c :: escapeQuotes cs

/-- Render one CSV field. -/
def renderField (s : Cell) : List Nat :=
  if needsQuoting s then 34 :: escapeQuotes s ++ [34] else s

/-- Render one CSV record: comma-separated fields. -/
def renderRow (r : Row) : List Nat :=
  List.intercalate [44] (r.map renderField)

/-- The lines of the emitted CSV: the header record (`header=True`)
followed by one record per data row and nothing else (`index=False`). -/
def csvLines (df : DataFrame) : List (List Nat) :=
  renderRow df.header :: df.rows.map renderRow

/-- The CSV text: every line terminated by a newline. -/
def to_csv (df : DataFrame) : List Nat :=
  ((csvLines df).map (fun l => l ++ [10])).flatten

/-- The UTF-8 byte-order mark (what `utf-8-sig` prepends). -/
def bomBytes : List Nat := [239, 187, 191]

/-- The emitted CSV byte buffer: BOM plus UTF-8 encoded CSV text.  In
`app.py` this is `BytesIO(csv_content.encode('utf-8-sig'))`; the CLI's
`df.to_csv(output_file, ..., encoding='utf-8-sig')` writes the same
bytes to the output file. -/
def csvBytes (df : DataFrame) : List Nat :=
  bomBytes ++ utf8Encode (to_csv df)

/-- `app.py`'s `xls_to_csv_utf8` (lines 37-87): read the table, emit the
CSV buffer, wrap any failure into one exception. -/
def xls_to_csv_utf8_app (excel : Except String DataFrame) (bs : List Nat) :
    Except String (List Nat) :=
  match readTable excel bs with
  | .ok df => .ok (csvBytes df)
  | .error m => .error ("เกิดข้อผิดพลาดในการแปลงไฟล์: " ++ m)

example :
    findTables (strBytes ("<p>x</p><table><tr><td>a</td><td>b</td></tr><tr><td>c</td><td>d</td></tr></table>")) =
      [[[strBytes ("a"), strBytes ("b")], [strBytes ("c"), strBytes ("d")]]] := by
  decide

example : findTables (strBytes ("<p>hi</p>")) = [] := by decide

example :
    readTable (.error ("no excel")) (strBytes ("<p>hi</p>")) =
      .error ("ไม่สามารถอ่านไฟล์ได้: No tables found") := by
  decide

example :
    to_csv { header := [strBytes ("Name"), strBytes ("Score")],
             rows := [[strBytes ("Ann"), strBytes ("90")], [strBytes ("Bo"), strBytes ("85")]] } =
      strBytes ("Name,Score\nAnn,90\nBo,85\n") := by
  decide

/-! ## Filename handling (`allowed_file`, `secure_filename`,
`Path.with_suffix`) -/

/-- ASCII lowercasing of one character (`str.lower` restricted to the
ASCII range, which is all the extension check distinguishes). -/
def lowerChar (c : Char) : Char :=
  if 'A' ≤ c && c ≤ 'Z' then Char.ofNat (c.toNat + 32) else c

/-- Index of the last `.` of a character list, if any. -/
def lastDotIndex (cs : List Char) : Option Nat :=
  match (cs.reverse).findIdx? (fun c => c = '.') with
  | some j => some (cs.length - 1 - j)
  | none => none

/-- `filename.rsplit('.', 1)[1]`: everything after the last dot. -/
def afterLastDot (cs : List Char) : List Char :=
  match lastDotIndex cs with
  | some i => cs.drop (i + 1)
  | none => cs

/-- `app.py` `allowed_file` (lines 32-34): the name holds a `.` and its
lowercased last extension is `xls` or `xlsx`. -/
def allowed_file (filename : String) : Bool :=
  let cs := filename.toList
  cs.contains '.' &&
    ((afterLastDot cs).map lowerChar = ("xls").toList ||
      (afterLastDot cs).map lowerChar = ("xlsx").toList)

/-- `pathlib.Path(name).with_suffix('.csv').name` on a bare file name: the
last suffix (a dot at a positive, non-final position) is replaced by
`.csv`; a name without a suffix gets `.csv` appended. -/
def withSuffixCsvName (name : List Char) : List Char :=
  match lastDotIndex name with
  | some i =>
    if 0 < i && i + 1 < name.length then name.take i ++ (".csv").toList
    else name ++ (".csv").toList
  | none => name ++ (".csv").toList

/-- Index of the last `/` of a character list, if any. -/
def lastSlashIndex (cs : List Char) : Option Nat :=
  match (cs.reverse).findIdx? (fun c => c = '/') with
  | some j => some (cs.length - 1 - j)
  | none => none

/-- `pathlib.Path(path).with_suffix('.csv')` on a POSIX path: replace the
suffix of the final component. -/
def withSuffixCsvPath (path : String) : String :=
  let cs := path.toList
  match lastSlashIndex cs with
  | some i => String.mk (cs.take (i + 1) ++ withSuffixCsvName (cs.drop (i + 1)))
  | none => String.mk (withSuffixCsvName cs)

/-- Python `str.split()` whitespace. -/
def isPyWs (c : Char) : Bool :=
  c = ' ' || c = '\t' || c = '\n' || c.toNat = 13 || c.toNat = 11 || c.toNat = 12

/-- Python `str.split()`: maximal non-whitespace runs, empties dropped. -/
def splitWhitespace (cs : List Char) : List (List Char) :=
  let p := cs.foldr
    (fun c acc =>
      if isPyWs c then (([] : List Char), if acc.1.isEmpty then acc.2 else acc.1 :: acc.2)
      else (c :: acc.1, acc.2))
    (([] : List Char), ([] : List (List Char)))
  if p.1.isEmpty then p.2 else p.1 :: p.2

/-- The character class werkzeug keeps in file names. -/
def isSafeFilenameChar (c : Char) : Bool :=
  ('A' ≤ c && c ≤ 'Z') || ('a' ≤ c && c ≤ 'z') || ('0' ≤ c && c ≤ '9') ||
    c = '_' || c = '.' || c = '-'

/-- `str.strip('._')`. -/
def stripDotUnderscore (cs : List Char) : List Char :=
  ((cs.dropWhile (fun c => c = '.' || c = '_')).reverse.dropWhile
    (fun c => c = '.' || c = '_')).reverse

/-- werkzeug `secure_filename` on POSIX: NFKD-normalize and keep only
ASCII (embedded as an ASCII filter, exact for inputs without
ASCII-producing decompositions, e.g. ASCII and Thai), turn `/` into a
space, join the whitespace-split words with `_`, drop every character
outside `[A-Za-z0-9_.-]`, and strip leading/trailing `.` and `_`. -/
def secure_filename (filename : String) : List Char :=
  let ascii := filename.toList.filter (fun c => c.toNat ≤ 127)
  let repl := ascii.map (fun c => if c = '/' then ' ' else c)
  let joined := List.intercalate [('_' : Char)] (splitWhitespace repl)
  stripDotUnderscore (joined.filter isSafeFilenameChar)

/-- The download name the handler builds:
`Path(secure_filename(file.filename)).with_suffix('.csv').name`. -/
def secureCsvName (filename : String) : String :=
  String.mk (withSuffixCsvName (secure_filename filename))

/-! ## The `/convert` handler (`app.py` lines 96-177) -/

/-- One part of the multipart `files` field: its client-supplied file
name, the result of the external binary-spreadsheet parse of its saved
bytes, and its raw bytes. -/
structure Upload where
  filename : String
  excel : Except String DataFrame
  bytes : List Nat
deriving DecidableEq

/-- The responses the handler can produce. -/
inductive Response
  | badRequest (msg : String)
  | serverError (msg : String)
  | fileResponse (downloadName : String) (mimetype : String) (content : List Nat)
  | zipResponse (downloadName : String) (entries : List (String × List Nat))
deriving DecidableEq

/-- Is the response an HTTP 400 JSON error? -/
def isBadRequest : Response → Bool
  | .badRequest _ => true
  | _ => false

/-- The ZIP branch's loop body: one `<stem>.csv` entry per valid upload
whose conversion succeeds, failures skipped (`continue`). -/
def zipEntries (valid : List Upload) : List (String × List Nat) :=
  valid.filterMap fun f =>
    match xls_to_csv_utf8_app f.excel f.bytes with
    | .ok csv => some (secureCsvName f.filename, csv)
    | .error _ => none

/-- `convert_file` (`app.py` lines 96-177).  `filesField = none` models a
request without a `files` part. -/
def convert_file (filesField : Option (List Upload)) : Response :=
  match filesField with
  | none => .badRequest ("ไม่พบไฟล์ที่อัปโหลด")
  | some files =>
    match files with
    | [] => .badRequest ("กรุณาเลือกไฟล์")
    | f0 :: _ =>
      if f0.filename = "" then .badRequest ("กรุณาเลือกไฟล์")
      else
        let valid := files.filter (fun f => allowed_file f.filename)
        match valid with
        | [] => .badRequest ("กรุณาอัปโหลดไฟล์ .xls หรือ .xlsx เท่านั้น")
        | [file] =>
          match xls_to_csv_utf8_app file.excel file.bytes with
          | .ok csv => .fileResponse (secureCsvName file.filename) ("text/csv") csv
          | .error m => .serverError m
        | _ :: _ :: _ => .zipResponse ("converted_files.zip") (zipEntries valid)

example : allowed_file ("Report.XLS") = true := by decide
example : allowed_file ("a.b.xlsx") = true := by decide
example : allowed_file ("report.csv") = false := by decide
example : allowed_file ("xls") = false := by decide
example : allowed_file ("") = false := by decide
example : secure_filename ("my report.xls") = ("my_report.xls").toList := by decide
example : secureCsvName ("my report.xls") = "my_report.csv" := by decide
example : secureCsvName ("รายงาน.xls") = "xls.csv" := by decide
example : withSuffixCsvPath ("dir/data.xls") = "dir/data.csv" := by decide
example : withSuffixCsvPath ("noext") = "noext.csv" := by decide

/-! ## The CLI (`convert_xls_to_csv.py` lines 23-156) -/

/-- Everything one CLI conversion call depends on: the two path
arguments and the observable state of the input file (existence, the
external binary parse outcome, the raw bytes). -/
structure CliEnv where
  inputFile : String
  outputArg : Option String
  fileExists : Bool
  excel : Except String DataFrame
  bytes : List Nat

/-- The output path the function uses: the explicit argument, or the
input path with its suffix replaced by `.csv`. -/
def outputPathOf (env : CliEnv) : String :=
  match env.outputArg with
  | some o => o
  | none => withSuffixCsvPath env.inputFile

/-- `xls_to_csv_utf8` of `convert_xls_to_csv.py` (lines 23-93): returns
the output path on success, `None` on failure; the second component is
the list of lines printed to standard error.  The whole body is inside
`try/except Exception`, which prints the error and returns `None`. -/
def xls_to_csv_utf8 (env : CliEnv) : Option String × List String :=
  if env.fileExists = false then
    (none, [("✗ เกิดข้อผิดพลาด: ไม่พบไฟล์: ") ++ env.inputFile])
  else
    match readTable env.excel env.bytes with
    | .ok _ => (some (outputPathOf env), [])
    | .error m => (none, [("✗ เกิดข้อผิดพลาด: ") ++ m])

/-- One `*.xls` file found by the batch glob. -/
structure BatchFile where
  path : String
  fileExists : Bool
  excel : Except String DataFrame
  bytes : List Nat

/-- File name of a POSIX path (`Path(p).name`). -/
def baseName (p : String) : List Char :=
  match lastSlashIndex p.toList with
  | some i => p.toList.drop (i + 1)
  | none => p.toList

/-- The per-file output path `output_path / xls_file.with_suffix('.csv').name`. -/
def batchOutPath (outDir : String) (p : String) : String :=
  outDir ++ "/" ++ String.mk (withSuffixCsvName (baseName p))

/-- `batch_convert` (lines 96-127): if the directory is missing, one
stderr line and no conversions; otherwise call `xls_to_csv_utf8` on
every found file in order, regardless of individual outcomes.  Returns
the per-file results and the directory-level stderr lines. -/
def batch_convert (dirExists : Bool) (inDir : String) (outDirArg : Option String)
    (files : List BatchFile) : List (Option String × List String) × List String :=
  if dirExists = false then
    ([], [("✗ ไม่พบโฟลเดอร์: ") ++ inDir])
  else
    let outDir := outDirArg.getD inDir
    (files.map fun f =>
      xls_to_csv_utf8
        { inputFile := f.path, outputArg := some (batchOutPath outDir f.path),
          fileExists := f.fileExists, excel := f.excel, bytes := f.bytes }, [])

/-- The observable world `main` runs against: the batch directory state
and the single-file state for the non-batch form. -/
structure World where
  dirExists : Bool
  batchFiles : List BatchFile
  singleExists : Bool
  singleExcel : Except String DataFrame
  singleBytes : List Nat

/-- What a `main` run amounts to: a usage error with `sys.exit(1)`, a
batch run, or a single conversion. -/
inductive MainResult
  | usage (exitCode : Nat)
  | batch (results : List (Option String × List String)) (dirErrs : List String)
  | single (result : Option String × List String)

/-- `main` (lines 130-152): fewer than two `argv` entries prints usage
and exits 1; `--batch` runs the batch; otherwise one file is converted.
No other path calls `sys.exit`, so those runs end with status 0. -/
def mainPy (argv : List String) (w : World) : MainResult :=
  match argv with
  | [] => .usage 1
  | [_] => .usage 1
  | _ :: a1 :: rest =>
    if a1 = "--batch" then
      let inDir := rest.headD "."
      let p := batch_convert w.dirExists inDir (rest.drop 1).head? w.batchFiles
      .batch p.1 p.2
    else
      .single (xls_to_csv_utf8
        { inputFile := a1, outputArg := rest.head?, fileExists := w.singleExists,
          excel := w.singleExcel, bytes := w.singleBytes })

/-- The process exit status of a `main` run. -/
def exitCodeOf : MainResult → Nat
  | .usage n => n
  | .batch _ _ => 0
  | .single _ => 0

/-! ## Shared concrete data and helper lemmas -/

/-- The spec's end-to-end example dataset. -/
def dfA : DataFrame :=
  { header := [strBytes ("Name"), strBytes ("Score")],
    rows := [[strBytes ("Ann"), strBytes ("90")], [strBytes ("Bo"), strBytes ("85")]] }

/-- `xls_to_csv_utf8` always either fails with one stderr line or
returns the chosen output path with no stderr output. -/
theorem cliConvertShape (env : CliEnv) :
    (∃ m, xls_to_csv_utf8 env = (none, [m])) ∨
      xls_to_csv_utf8 env = (some (outputPathOf env), []) := by
  unfold xls_to_csv_utf8
  cases hf : env.fileExists with
  | false =>
    exact .inl ⟨("✗ เกิดข้อผิดพลาด: ไม่พบไฟล์: ") ++ env.inputFile, by simp [hf]⟩
  | true =>
    cases hr : readTable env.excel env.bytes with
    | ok df => exact .inr (by simp [hf, hr])
    | error m =>
      exact .inl ⟨("✗ เกิดข้อผิดพลาด: ") ++ m, by simp [hf, hr]⟩

/-- C1: when the binary parse fails, the converter decodes UTF-8 first
and, on a `UnicodeDecodeError`, tries cp874, tis-620, iso-8859-11 and
windows-874 in that order; the claim further says that when all four
fail it falls back to UTF-8 with replacement and never raises.  On the
bytes `[0xFF]` the first four decodes all fail, and the attempt of the
name `windows-874` — which CPython does not register — raises
`LookupError`, so the chain errors out and the replacement fallback is
dead code: the converter reports the combined failure instead of
replace-decoding. -/
theorem c1_windows874_lookup_error :
    pyDecode .utf8 [255] = .unicodeError ∧
    pyDecode .cp874 [255] = .unicodeError ∧
    pyDecode .tis620 [255] = .unicodeError ∧
    pyDecode .iso885911 [255] = .unicodeError ∧
    pyDecode .windows874 [255] = .lookupError ("unknown encoding: windows-874") ∧
    decodeTextChain [255] = .error ("unknown encoding: windows-874") ∧
    utf8DecodeReplace [255] = [replacementChar] ∧
    readTable (.error ("excel parse failed")) [255] =
      .error ("ไม่สามารถอ่านไฟล์ได้: unknown encoding: windows-874") := by
  decide

/-- C3: whenever the binary parse has failed and the HTML branch also
fails — in particular when the bytes decode to a document with zero
`<table>` elements — the converter produces the single combined error
`ไม่สามารถอ่านไฟล์ได้: <cause>` carrying the underlying cause, and
nothing else. -/
theorem c3_combined_error (excelMsg : String) (bs : List Nat) :
    (∀ m, htmlBranch bs = .error m →
      readTable (.error excelMsg) bs = .error (("ไม่สามารถอ่านไฟล์ได้: ") ++ m)) ∧
    (∀ text, decodeTextChain bs = .ok text → findTables text = [] →
      readTable (.error excelMsg) bs =
        .error (("ไม่สามารถอ่านไฟล์ได้: ") ++ "No tables found")) := by
  constructor
  · intro m h
    unfold readTable
    rw [h]
  · intro text hdec hft
    have hbr : htmlBranch bs = .error ("No tables found") := by
      unfold htmlBranch
      rw [hdec]
      simp [read_html, hft]
    unfold readTable
    rw [hbr]

/-- Witness for C3 at a concrete input: UTF-8 text with no table. -/
theorem c3_combined_error_witness :
    readTable (.error ("excel boom")) (strBytes ("<p>hi</p>")) =
      .error ("ไม่สามารถอ่านไฟล์ได้: No tables found") :=
  (c3_combined_error ("excel boom") (strBytes ("<p>hi</p>"))).1
    ("No tables found") (by decide)

/-- C4: for a parsed first sheet with first row `r` and remaining rows
`rs`, the emitted CSV's first record is the rendering of `r` and the
data records are exactly the renderings of `rs`, so their count is the
sheet's row count minus one. -/
theorem c4_header_and_count (r : Row) (rs : List Row) :
    csvLines (read_excel (r :: rs)) = renderRow r :: rs.map renderRow ∧
    (rs.map renderRow).length = (r :: rs).length - 1 := by
  constructor
  · rfl
  · simp

/-- C5: every successful conversion of `app.py`'s `xls_to_csv_utf8`
yields the byte-order mark followed by the UTF-8 encoding of the CSV
text, whose records are the header record followed by one record per
data row and nothing else. -/
theorem c5_bom_and_layout (excel : Except String DataFrame) (bs : List Nat)
    (out : List Nat) (h : xls_to_csv_utf8_app excel bs = .ok out) :
    ∃ df, readTable excel bs = .ok df ∧
      out = bomBytes ++ utf8Encode (to_csv df) ∧
      out.take 3 = [239, 187, 191] ∧
      csvLines df = renderRow df.header :: df.rows.map renderRow := by
  unfold xls_to_csv_utf8_app at h
  cases hr : readTable excel bs with
  | error m => rw [hr] at h; exact absurd h (by simp)
  | ok df =>
    rw [hr] at h
    have hout : csvBytes df = out := by
      injection h
    refine ⟨df, rfl, ?_, ?_, rfl⟩
    · rw [← hout]; rfl
    · rw [← hout]; rfl

/-- Witness for C5 at a concrete successful conversion. -/
theorem c5_bom_and_layout_witness :
    ∃ df, readTable (.ok dfA) [] = .ok df ∧
      csvBytes dfA = bomBytes ++ utf8Encode (to_csv df) ∧
      (csvBytes dfA).take 3 = [239, 187, 191] ∧
      csvLines df = renderRow df.header :: df.rows.map renderRow :=
  c5_bom_and_layout (.ok dfA) [] (csvBytes dfA) (by rfl)

/-- C10: the CLI converter is total over its modelled inputs: every call
either returns `None` having emitted exactly one stderr line, or returns
the output path (the explicit argument, or the input path with suffix
`.csv`) with no stderr output — no exception escapes. -/
theorem c10_cli_total (env : CliEnv) :
    ((xls_to_csv_utf8 env).1 = none ∧ (xls_to_csv_utf8 env).2.length = 1) ∨
      xls_to_csv_utf8 env = (some (outputPathOf env), []) := by
  rcases cliConvertShape env with ⟨m, h⟩ | h
  · exact .inl (by rw [h]; exact ⟨rfl, rfl⟩)
  · exact .inr h

/-- A TIS-620 encoding of a one-cell table holding `เกก` (U+0E40 U+0E01
U+0E01): the Thai cell bytes are `E0 A1 A1`, which happen to form a
valid UTF-8 sequence for U+0861. -/
def c2Bytes : List Nat :=
  strBytes ("<table><tr><td>") ++ [224, 161, 161] ++ strBytes ("</td></tr></table>")

/-- The text those bytes encode under TIS-620. -/
def c2TisText : List Nat :=
  strBytes ("<table><tr><td>") ++ [3648, 3585, 3585] ++ strBytes ("</td></tr></table>")

/-- The text the converter actually obtains: UTF-8 wins the chain and
turns the Thai cell into the single character U+0861. -/
def c2Utf8Text : List Nat :=
  strBytes ("<table><tr><td>") ++ [2145] ++ strBytes ("</td></tr></table>")

/-- C2 fails as stated: `c2Bytes` is a valid TIS-620 encoding of a
one-table document, the converter decodes it without raising, but the
extracted first table is the mojibake table of the UTF-8 reading, not
the table of the text as encoded. -/
theorem c2_counterexample :
    decodeCharset .tis620 c2Bytes = some c2TisText ∧
    findTables c2TisText = [[[[3648, 3585, 3585]]]] ∧
    decodeTextChain c2Bytes = .ok c2Utf8Text ∧
    htmlBranch c2Bytes = .ok (dfOfTable [[[2145]]]) ∧
    dfOfTable [[[2145]]] ≠ dfOfTable [[[3648, 3585, 3585]]] := by
  decide

/-- C2 as amended: the decoding is total and the extracted first table
is the table of the text as encoded, provided no encoding strictly
earlier in the chain (UTF-8, then cp874, tis-620, iso-8859-11,
windows-874) also decodes the bytes — in particular, unconditionally for
UTF-8 input. -/
theorem c2_first_table_correct (bs t : List Nat) (e : Enc)
    (hdec : decodeCharset e bs = some t)
    (hprev : ∀ e2 : Enc, chainIdx e2 < chainIdx e → decodeCharset e2 bs = none) :
    decodeTextChain bs = .ok t ∧
    ∀ tbl tbls, findTables t = tbl :: tbls → htmlBranch bs = .ok (dfOfTable tbl) := by
  have hchain : decodeTextChain bs = .ok t := by
    cases e with
    | utf8 =>
      simp only [decodeCharset] at hdec
      simp [decodeTextChain, pyDecode, pyCodecLookup, hdec]
    | cp874 =>
      have h0 := hprev .utf8 (by decide)
      simp only [decodeCharset] at hdec h0
      simp [decodeTextChain, decodeTextChainGo, legacyEncodings, pyDecode,
        pyCodecLookup, hdec, h0]
    | tis620 =>
      have h0 := hprev .utf8 (by decide)
      have h1 := hprev .cp874 (by decide)
      simp only [decodeCharset] at hdec h0 h1
      simp [decodeTextChain, decodeTextChainGo, legacyEncodings, pyDecode,
        pyCodecLookup, hdec, h0, h1]
    | iso885911 =>
      have h0 := hprev .utf8 (by decide)
      have h1 := hprev .cp874 (by decide)
      have h2 := hprev .tis620 (by decide)
      simp only [decodeCharset] at hdec h0 h1 h2
      simp [decodeTextChain, decodeTextChainGo, legacyEncodings, pyDecode,
        pyCodecLookup, hdec, h0, h1, h2]
    | windows874 =>
      have h1 := hprev .cp874 (by decide)
      simp only [decodeCharset] at hdec h1
      rw [h1] at hdec
      exact absurd hdec (by simp)
  refine ⟨hchain, ?_⟩
  intro tbl tbls hft
  unfold htmlBranch
  rw [hchain]
  simp [read_html, hft]

/-- A document whose bytes fail UTF-8 and cp874 but are valid TIS-620
(byte 0x86 is undefined in cp874, defined in CPython's tis-620). -/
def c2wBytes : List Nat :=
  strBytes ("<table><tr><td>") ++ [134] ++ strBytes ("</td></tr></table>")

/-- Witness for the amended C2: tis-620 is the first chain encoding that
decodes `c2wBytes`, and the extracted first table is that of the decoded
text. -/
theorem c2_first_table_correct_witness :
    decodeTextChain c2wBytes = .ok c2wBytes ∧
    htmlBranch c2wBytes = .ok (dfOfTable [[[134]]]) := by
  have h := c2_first_table_correct c2wBytes c2wBytes .tis620 (by decide)
    (fun e2 h2 => by
      cases e2 with
      | utf8 => decide
      | cp874 => decide
      | tis620 => exact absurd h2 (by decide)
      | iso885911 => exact absurd h2 (by decide)
      | windows874 => exact absurd h2 (by decide))
  exact ⟨h.1, h.2 [[[134]]] [] (by decide)⟩

/-- A single valid upload whose client file name holds a space. -/
def c6Upload : Upload := { filename := "my report.xls", excel := .ok dfA, bytes := [] }

/-- C6 fails as stated: for the upload `my report.xls` the response is
the converted CSV with Content-Type text/csv, but its download name is
`my_report.csv` — the secure-filename-sanitized stem — not the original
stem `my report` followed by `.csv`. -/
theorem c6_counterexample :
    convert_file (some [c6Upload]) =
      .fileResponse ("my_report.csv") ("text/csv") (csvBytes dfA) ∧
    ("my_report.csv" : String) ≠ "my report.csv" := by
  decide

/-- C6 as amended: for one valid upload, success yields the CSV as a
text/csv attachment whose download name is the stem of the sanitized
(`secure_filename`) original name followed by `.csv` — which equals the
original stem whenever the name is already in sanitized form — and a
conversion failure yields the 500 error body. -/
theorem c6_single_file_response (u : Upload)
    (hall : allowed_file u.filename = true) :
    (∀ csv, xls_to_csv_utf8_app u.excel u.bytes = .ok csv →
      convert_file (some [u]) = .fileResponse (secureCsvName u.filename) ("text/csv") csv) ∧
    (∀ m, xls_to_csv_utf8_app u.excel u.bytes = .error m →
      convert_file (some [u]) = .serverError m) := by
  have hne : u.filename ≠ "" := by
    intro h
    rw [h] at hall
    exact absurd hall (by decide)
  constructor
  · intro csv hx
    simp [convert_file, hne, hall, hx]
  · intro m hx
    simp [convert_file, hne, hall, hx]

/-- A sanitized-form upload used to instantiate the amended C6. -/
def c6wUpload : Upload := { filename := "report.xls", excel := .ok dfA, bytes := [] }

/-- Witness for the amended C6 at a concrete upload. -/
theorem c6_single_file_response_witness :
    convert_file (some [c6wUpload]) =
      .fileResponse (secureCsvName ("report.xls")) ("text/csv") (csvBytes dfA) :=
  (c6_single_file_response c6wUpload (by decide)).1 (csvBytes dfA) (by rfl)

/-- Two valid uploads, the first with a space in its name. -/
def c7Upload1 : Upload := { filename := "school report.xls", excel := .ok dfA, bytes := [] }

/-- Second upload of the C7 counterexample. -/
def c7Upload2 : Upload := { filename := "b.xls", excel := .ok dfA, bytes := [] }

/-- C7 fails as stated: the multi-file ZIP holds one entry per
successful conversion, but the entry for `school report.xls` is named
`school_report.csv` (the sanitized stem), not the original stem followed
by `.csv`. -/
theorem c7_counterexample :
    convert_file (some [c7Upload1, c7Upload2]) =
      .zipResponse ("converted_files.zip")
        [("school_report.csv", csvBytes dfA), ("b.csv", csvBytes dfA)] ∧
    ("school_report.csv" : String) ≠ "school report.csv" := by
  decide

/-- C7 as amended: with at least two valid uploads, the response is the
ZIP attachment `converted_files.zip` holding exactly one entry per valid
upload whose conversion succeeds — named with the sanitized
(`secure_filename`) stem and a `.csv` suffix — while failing inputs are
silently omitted, with no failure indication in the response. -/
theorem c7_zip_response (u0 : Upload) (rest : List Upload)
    (hne : u0.filename ≠ "")
    (h2 : 2 ≤ ((u0 :: rest).filter (fun f => allowed_file f.filename)).length) :
    convert_file (some (u0 :: rest)) =
      .zipResponse ("converted_files.zip")
        (zipEntries ((u0 :: rest).filter (fun f => allowed_file f.filename))) := by
  simp only [convert_file]
  rw [if_neg hne]
  cases hv : (u0 :: rest).filter (fun f => allowed_file f.filename) with
  | nil => rw [hv] at h2; exact absurd h2 (by simp)
  | cons a tail =>
    cases tail with
    | nil => rw [hv] at h2; exact absurd h2 (by simp)
    | cons b more => rfl

/-- First witness upload for the amended C7 (converts fine). -/
def c7w1 : Upload := { filename := "a.xls", excel := .ok dfA, bytes := [] }

/-- Second witness upload for the amended C7: both the binary parse and
the HTML fallback fail, so its conversion fails and it is omitted. -/
def c7w2 : Upload := { filename := "b.xlsx", excel := .error ("bad"), bytes := [255] }

/-- Witness for the amended C7: two valid uploads, one failing, produce
a ZIP with exactly the successful file's entry. -/
theorem c7_zip_response_witness :
    convert_file (some [c7w1, c7w2]) =
      .zipResponse ("converted_files.zip") [("a.csv", csvBytes dfA)] := by
  have h := c7_zip_response c7w1 [c7w2] (by decide) (by decide)
  rw [h]
  decide

/-- The condition under which the handler rejects the whole request with
HTTP 400, read off the amended claim: the `files` field is absent, or
the list is empty, or the first uploaded file has an empty name, or no
uploaded file has an allowed extension. -/
def shouldRejectAll (filesField : Option (List Upload)) : Bool :=
  match filesField with
  | none => true
  | some [] => true
  | some (u0 :: rest) =>
    u0.filename = "" ||
      ((u0 :: rest).filter (fun f => allowed_file f.filename)).isEmpty

/-- An upload with an empty client file name (a browser submits one such
part when no file is selected). -/
def c8EmptyUpload : Upload := { filename := "", excel := .error ("e"), bytes := [] }

/-- A valid upload sitting behind the empty-named one. -/
def c8GoodUpload : Upload := { filename := "a.xls", excel := .ok dfA, bytes := [] }

/-- C8 fails as stated: a request whose first part has an empty file
name is rejected with 400 even though a later uploaded file has an
allowed extension. -/
theorem c8_counterexample :
    convert_file (some [c8EmptyUpload, c8GoodUpload]) = .badRequest ("กรุณาเลือกไฟล์") ∧
    allowed_file (c8GoodUpload.filename) = true ∧
    isBadRequest (convert_file (some [c8EmptyUpload, c8GoodUpload])) = true := by
  decide

/-- C8 as amended: the handler answers HTTP 400 exactly when the `files`
field is absent, the upload list is empty, the first uploaded file has
an empty filename, or no uploaded file has an allowed extension;
other-extension files are dropped from processing with no per-file
error. -/
theorem c8_bad_request_iff (filesField : Option (List Upload)) :
    isBadRequest (convert_file filesField) = shouldRejectAll filesField := by
  cases filesField with
  | none => rfl
  | some fs =>
    cases fs with
    | nil => rfl
    | cons u0 rest =>
      by_cases hne : u0.filename = ""
      · simp [convert_file, shouldRejectAll, hne, isBadRequest]
      · simp only [convert_file, shouldRejectAll]
        rw [if_neg hne]
        cases hv : (u0 :: rest).filter (fun f => allowed_file f.filename) with
        | nil => simp [hv, hne, isBadRequest]
        | cons a tail =>
          cases tail with
          | nil =>
            cases hc : xls_to_csv_utf8_app a.excel a.bytes with
            | ok csv => simp [hv, hc, hne, isBadRequest]
            | error m => simp [hv, hc, hne, isBadRequest]
          | cons b more => simp [hv, hne, isBadRequest]

/-- C9: the exit status is non-zero exactly when `main` gets no
arguments, and a batch run over an existing directory processes every
found file — each one either failing with exactly one stderr line or
succeeding with none — so no per-file failure aborts the batch or
changes the exit status. -/
theorem c9_exit_status_and_batch (argv : List String) (w : World) :
    (exitCodeOf (mainPy argv w) ≠ 0 ↔ argv.length < 2) ∧
    (∀ results dirErrs, mainPy argv w = .batch results dirErrs → w.dirExists = true →
      results.length = w.batchFiles.length ∧
      ∀ r ∈ results, (r.1 = none ∧ r.2.length = 1) ∨ (∃ p, r.1 = some p ∧ r.2 = [])) := by
  constructor
  · match argv with
    | [] => simp [mainPy, exitCodeOf]
    | [a] => simp [mainPy, exitCodeOf]
    | a :: b :: rest =>
      have hlen : ¬((a :: b :: rest).length < 2) := by simp
      by_cases hb : b = "--batch" <;>
        simp [mainPy, hb, exitCodeOf, hlen]
  · intro results dirErrs hmain hdir
    match argv with
    | [] => exact absurd hmain (by simp [mainPy])
    | [a] => exact absurd hmain (by simp [mainPy])
    | a :: b :: rest =>
      by_cases hb : b = "--batch"
      · simp only [mainPy, hb, if_pos] at hmain
        unfold batch_convert at hmain
        rw [hdir] at hmain
        rw [if_neg (by decide : ¬((true : Bool) = false))] at hmain
        simp only [MainResult.batch.injEq] at hmain
        obtain ⟨hres, _⟩ := hmain
        subst hres
        constructor
        · simp
        · intro r hr
          rw [List.mem_map] at hr
          obtain ⟨f, _, rfl⟩ := hr
          rcases cliConvertShape
              { inputFile := f.path,
                outputArg := some (batchOutPath ((rest.drop 1).head?.getD (rest.headD ".")) f.path),
                fileExists := f.fileExists, excel := f.excel, bytes := f.bytes } with
            ⟨m, h⟩ | h
          · exact .inl (by rw [h]; exact ⟨rfl, rfl⟩)
          · exact .inr ⟨_, by rw [h]; exact ⟨rfl, rfl⟩⟩
      · exact absurd hmain (by simp [mainPy, hb])

/-- A batch file that converts successfully. -/
def c9FileOk : BatchFile :=
  { path := "in/a.xls", fileExists := true, excel := .ok dfA, bytes := [] }

/-- A batch file whose binary parse and HTML fallback both fail. -/
def c9FileBad : BatchFile :=
  { path := "in/b.xls", fileExists := true, excel := .error ("bad"), bytes := [255] }

/-- A concrete batch invocation. -/
def c9Argv : List String := ["prog", "--batch", "in"]

/-- The world for the concrete batch invocation. -/
def c9World : World :=
  { dirExists := true, batchFiles := [c9FileOk, c9FileBad], singleExists := true,
    singleExcel := .error ("e"), singleBytes := [] }

/-- The per-file results of the concrete batch invocation. -/
def c9Results : List (Option String × List String) :=
  (batch_convert true ("in") none c9World.batchFiles).1

/-- Witness for C9: the concrete batch run (one good file, one bad file)
exits 0, processes both files, and reports the failure on stderr. -/
theorem c9_exit_status_and_batch_witness :
    exitCodeOf (mainPy c9Argv c9World) = 0 ∧
    c9Results.length = c9World.batchFiles.length ∧
    ∀ r ∈ c9Results, (r.1 = none ∧ r.2.length = 1) ∨ (∃ p, r.1 = some p ∧ r.2 = []) := by
  have h := c9_exit_status_and_batch c9Argv c9World
  have h2 := h.2 c9Results [] (by rfl) (by rfl)
  refine ⟨?_, h2.1, h2.2⟩
  by_contra hne
  exact absurd (h.1.mp hne) (by decide)
